import Mathlib

/-!
Verification of the streak / streak-saver / goal-projection engine of the
SatWithSat bot (src/stats.py, src/db.py, src/app.py, src/config.py).

Modelling conventions (shallow embedding):
* A local calendar day is an integer (`ℤ`): the day index in the deployment's
  configured timezone.  The Postgres query
  `SELECT DISTINCT (created_at AT TIME ZONE tz)::date` is modelled by a
  `Finset ℤ` of distinct day indices.
* Timestamps for the goal estimator are rationals (`ℚ`), measured in seconds;
  Python's `astimezone` does not change the instant, so elapsed-time arithmetic
  is unaffected by it.  Python float arithmetic on the small quantities involved
  is modelled by exact rational arithmetic (`1e-6` as `1/1000000`, `0.05` as
  `1/20`).
* Scores and user counters are integers (`ℤ`); the database columns are
  integral types.
* Fallible lookups return `Option`.
-/

namespace SatBot

/-! ## config.py -/

/-- Constant `SAVER_EARN_THRESHOLD = 3` from src/config.py: earn 1 saver/day
once you log 3 tests in a day. -/
def SAVER_EARN_THRESHOLD : ℕ := 3

/-! ## The streak-counting loop of `streak_days_with_saver` (src/stats.py)

```
streak = 0
cur_day = today
while cur_day in dayset:
    streak += 1
    cur_day -= timedelta(days=1)
```

The loop visits strictly decreasing days, so it performs at most
`dayset.card` successful membership tests: after `card` successes every
element of `dayset` has been visited and the next test fails.  Hence fuel
`dayset.card + 1` always suffices, and `streakFromAux` with that fuel is an
exact model of the loop. -/

def streakFromAux : ℕ → Finset ℤ → ℤ → ℕ
  | 0, _, _ => 0
  | fuel + 1, s, d => if d ∈ s then streakFromAux fuel s (d - 1) + 1 else 0

/-- The number of consecutive days present in `s`, walking backward from `d`:
the value of `streak` when the `while` loop exits. -/
def streakFrom (s : Finset ℤ) (d : ℤ) : ℕ :=
  streakFromAux (s.card + 1) s d

/-! ## `streak_days_with_saver` (src/stats.py, lines 196–233)

```
def streak_days_with_saver(user_id, current_savers):
    today = datetime.now(tz).date()
    days = <distinct local days with a test>
    if not days:
        return 0, False, current_savers
    dayset = set(days); saver_used = False; savers = current_savers
    if today not in dayset:
        yesterday = today - timedelta(days=1)
        if yesterday in dayset and savers > 0:
            savers -= 1
            saver_used = True
            set_user_fields(user_id, {"streak_savers": savers})
            dayset.add(today)
    <while loop above>
    return streak, saver_used, savers
```

The embedding makes the database reads and the single write explicit:
`days`/`today` are inputs, `current_savers` is the caller-supplied balance,
`dbSavers` is the persisted `users.streak_savers` value before the call, and
the second component of the result is the persisted value after the call
(changed only by the `set_user_fields` write in the bridge branch).
The near-identical copy in src/app.py (lines 667–708) differs only in
persisting `GREATEST(0, streak_savers - 1)` database-side; when the caller's
balance is a fresh read of `users.streak_savers` (as at every call site) the
persisted outcome is the same. -/

structure StreakEval where
  streak : ℕ
  saver_used : Bool
  savers : ℤ
  deriving DecidableEq

def streak_days_with_saver (days : Finset ℤ) (today : ℤ)
    (current_savers dbSavers : ℤ) : StreakEval × ℤ :=
  if days = ∅ then
    (⟨0, false, current_savers⟩, dbSavers)
  else if today ∉ days ∧ (today - 1) ∈ days ∧ 0 < current_savers then
    (⟨streakFrom (insert today days) today, true, current_savers - 1⟩,
      current_savers - 1)
  else
    (⟨streakFrom days today, false, current_savers⟩, dbSavers)

/-- Two evaluations of `streak_days_with_saver` on the same day, with no new
ScoreEvent in between (`days` unchanged), where each evaluation receives the
freshly persisted balance as `current_savers` — the calling pattern of
src/app.py, which re-reads the user row at the start of every webhook request.
Returns the persisted balance after the second evaluation. -/
def evalStreakTwice (days : Finset ℤ) (today : ℤ) (b : ℤ) : ℤ :=
  (streak_days_with_saver days today
    (streak_days_with_saver days today b b).2
    (streak_days_with_saver days today b b).2).2

/-! ## `maybe_award_streak_saver` (src/stats.py, lines 177–194)

```
def maybe_award_streak_saver(user_id):
    today_local = datetime.now(tz).date()
    c = tests_today_count(user_id)
    if c < SAVER_EARN_THRESHOLD:
        return None
    row = <SELECT saver_awarded_date FROM users WHERE id=user_id>
    if not row:
        return None
    if row["saver_awarded_date"] == today_local:
        return None
    set_user_fields(user_id, {"streak_savers": ("__INC__", 1),
                              "saver_awarded_date": today_local})
    return "🛡️ Streak Saver earned! ..."
```

The user row is assumed to exist (every caller passes the id of an existing
user).  The returned notification string is modelled by a `Bool` (`true` iff
the award fired).  `("__INC__", 1)` becomes
`streak_savers = COALESCE(streak_savers,0) + 1`; the column is `NOT NULL`, so
it is plain `+ 1`. -/

structure AwardState where
  streak_savers : ℤ
  saver_awarded_date : Option ℤ
  deriving DecidableEq

def maybe_award_streak_saver (today : ℤ) (testsToday : ℕ) (st : AwardState) :
    Bool × AwardState :=
  if testsToday < SAVER_EARN_THRESHOLD then
    (false, st)
  else if st.saver_awarded_date = some today then
    (false, st)
  else
    (true, ⟨st.streak_savers + 1, some today⟩)

/-! ## The saver state machine (for the balance invariant)

A user's saver-related state, acted on by the two operations that touch
`users.streak_savers`: the award rule and a streak evaluation (whose bridge
branch may consume a saver).  Each operation reads the persisted balance
fresh, as the webhook handlers in src/app.py do. -/

structure EngineState where
  days : Finset ℤ
  streak_savers : ℤ
  saver_awarded_date : Option ℤ
  deriving DecidableEq

inductive EngineOp where
  | award (today : ℤ) (testsToday : ℕ)
  | evalStreak (today : ℤ)
  deriving DecidableEq

def engineStep (st : EngineState) (op : EngineOp) : EngineState :=
  match op with
  | .award today c =>
      let a := (maybe_award_streak_saver today c
        ⟨st.streak_savers, st.saver_awarded_date⟩).2
      { st with streak_savers := a.streak_savers,
                saver_awarded_date := a.saver_awarded_date }
  | .evalStreak today =>
      { st with streak_savers :=
          (streak_days_with_saver st.days today st.streak_savers
            st.streak_savers).2 }

def runEngine (st : EngineState) (ops : List EngineOp) : EngineState :=
  ops.foldl engineStep st

/-! ## The score ledger: `add_math_score` and `remove_test_by_id` (src/db.py)

A `tests` row carries its serial id, its owner and the score;
`users.total_points` / `users.tests_count` are the per-user cumulative
counters.  `users` is total over ids (ids without a real row behave as a
default row, which the claims never exercise).  New rows receive `nextId`,
modelling the `SERIAL` primary key. -/

structure TestRow where
  id : ℕ
  user_id : ℕ
  math_score : ℤ
  deriving DecidableEq

structure UserTotals where
  total_points : ℤ
  tests_count : ℤ
  deriving DecidableEq

structure Ledger where
  tests : List TestRow
  nextId : ℕ
  users : ℕ → UserTotals

/-- Embedding of `add_math_score` (src/db.py, lines 348–368): insert a `tests`
row (`RETURNING id`), then
`UPDATE users SET total_points = total_points + score, tests_count =
tests_count + 1 WHERE id=user_id`.  The `last_test_at` stamp and the
`update_preferred_time` call touch neither counter nor the tests rows and are
omitted.  Returns the new ledger and the new test id. -/
def add_math_score (L : Ledger) (uid : ℕ) (score : ℤ) : Ledger × ℕ :=
  (⟨⟨L.nextId, uid, score⟩ :: L.tests,
    L.nextId + 1,
    fun u =>
      if u = uid then
        ⟨(L.users uid).total_points + score, (L.users uid).tests_count + 1⟩
      else L.users u⟩,
   L.nextId)

/-- Embedding of `remove_test_by_id` (src/db.py, lines 370–390): look up the
row (`SELECT user_id, math_score FROM tests WHERE id=test_id`), return `none`
if absent; otherwise delete it and
`UPDATE users SET total_points = GREATEST(0, total_points - score),
tests_count = GREATEST(0, tests_count - 1) WHERE id=user_id`.
Returns the new ledger and `some user_id` (or the ledger unchanged and
`none`). -/
def remove_test_by_id (L : Ledger) (tid : ℕ) : Ledger × Option ℕ :=
  match L.tests.find? (fun t => t.id == tid) with
  | none => (L, none)
  | some t =>
      (⟨L.tests.filter (fun r => r.id != tid),
        L.nextId,
        fun u =>
          if u = t.user_id then
            ⟨max 0 ((L.users t.user_id).total_points - t.math_score),
             max 0 ((L.users t.user_id).tests_count - 1)⟩
          else L.users u⟩,
       some t.user_id)

/-! ## `estimate_goal` (src/stats.py, lines 83–123)

```
def estimate_goal(history, goal):
    if not history or len(history) < 4:
        return "Not enough data for a goal estimate yet. Log a few more tests."
    points = []
    for r in reversed(history[:30]):  # oldest first
        s = r.get("s"); at = r.get("created_at")
        if s is None or at is None: continue
        points.append((at.astimezone(tz), int(s)))
    if len(points) < 4:
        return "Not enough data for a goal estimate yet."
    pts = points[-10:]
    t0, s0 = pts[0]; t1, s1 = pts[-1]
    days = max(1e-6, (t1 - t0).total_seconds() / 86400.0)
    slope = (s1 - s0) / days
    current = s1
    if current >= goal: return <already-met message>
    if slope <= 0.05: return <flat-trend message>
    days_needed = (goal - current) / slope
    eta = datetime.now(tz=tz) + timedelta(days=days_needed)
    return <projection message with current, slope, eta>
```

`history` is newest first.  A history row has the two fields the function
reads, each possibly absent/NULL; timestamps are in seconds.  The four
distinct return strings become the four constructors of `GoalResult`, a
projection carrying the numbers baked into its message (the estimated
arrival instant `eta`, in seconds, equals `now + days_needed * 86400`).
`datetime.now` becomes the explicit parameter `now`. -/

structure HistRow where
  s : Option ℤ
  created_at : Option ℚ
  deriving DecidableEq

inductive GoalResult where
  | insufficientLogMore
  | insufficient
  | alreadyMet (goal : ℤ)
  | flatTrend (goal : ℤ)
  | projection (goal current : ℤ) (slope : ℚ) (eta : ℚ)
  deriving DecidableEq

/-! The intermediate values of the function body are transcribed as named
definitions, each mapped to its Python line, and `estimate_goal` is their
composition:

* `validPoints` — the `points` list: `reversed(history[:30])` (oldest first)
  with the `None`-guarded rows dropped;
* `windowPts` — `pts = points[-10:]` (`drop (length - 10)` keeps the last 10
  elements, or all of them when fewer);
* `windowT0`, `windowS0` — `t0, s0 = pts[0]`;
* `windowT1`, `windowS1` — `t1, s1 = pts[-1]` (the defaults of
  `headD`/`getLastD` are never reached: the length-4 guard makes `pts`
  nonempty);
* `windowDays` — `days = max(1e-6, (t1 - t0).total_seconds() / 86400.0)`;
* `windowSlope` — `slope = (s1 - s0) / days`; `current` is `windowS1`. -/

def validPoints (history : List HistRow) : List (ℚ × ℤ) :=
  ((history.take 30).reverse).filterMap fun r =>
    match r.s, r.created_at with
    | some sv, some t => some (t, sv)
    | _, _ => none

def windowPts (history : List HistRow) : List (ℚ × ℤ) :=
  (validPoints history).drop ((validPoints history).length - 10)

def windowT0 (history : List HistRow) : ℚ := ((windowPts history).headD (0, 0)).1

def windowS0 (history : List HistRow) : ℤ := ((windowPts history).headD (0, 0)).2

def windowT1 (history : List HistRow) : ℚ :=
  ((windowPts history).getLastD (0, 0)).1

def windowS1 (history : List HistRow) : ℤ :=
  ((windowPts history).getLastD (0, 0)).2

def windowDays (history : List HistRow) : ℚ :=
  max (1 / 1000000) ((windowT1 history - windowT0 history) / 86400)

def windowSlope (history : List HistRow) : ℚ :=
  ((windowS1 history : ℚ) - (windowS0 history : ℚ)) / windowDays history

def estimate_goal (history : List HistRow) (goal : ℤ) (now : ℚ) : GoalResult :=
  if history.length < 4 then .insufficientLogMore
  else if (validPoints history).length < 4 then .insufficient
  else if goal ≤ windowS1 history then .alreadyMet goal
  else if windowSlope history ≤ 1 / 20 then .flatTrend goal
  else
    .projection goal (windowS1 history) (windowSlope history)
      (now + ((goal : ℚ) - (windowS1 history : ℚ)) / windowSlope history
        * 86400)

/-! ## Example inputs used to exercise the claims on concrete data -/

/-- The set of the `N` consecutive local days ending at `today`
(days `today`, `today - 1`, …, `today - (N-1)`). -/
def consecutiveDays (today : ℤ) (N : ℕ) : Finset ℤ :=
  Finset.image (fun i : ℕ => today - (i : ℤ)) (Finset.range N)

/-- History of exactly two points: score 20 at time 0, score 30 ten days
(864000 s) later, newest first — the input named by the spec's goal-projection
example. -/
def hist2c : List HistRow := [⟨some 30, some 864000⟩, ⟨some 20, some 0⟩]

/-- Four-point history, newest first, whose 10-event window has endpoints
(time 0, score 20) and (time 864000 s = 10 days, score 30). -/
def hist4c : List HistRow :=
  [⟨some 30, some 864000⟩, ⟨some 28, some 700000⟩,
   ⟨some 24, some 300000⟩, ⟨some 20, some 0⟩]

/-- Four-point history with a flat trend (constant score 20 over ten days). -/
def histFlat : List HistRow :=
  [⟨some 20, some 864000⟩, ⟨some 20, some 600000⟩,
   ⟨some 20, some 300000⟩, ⟨some 20, some 0⟩]

/-- Four-point history with a strictly negative trend (scores 30 down to 25
over ten days), newest first. -/
def histNeg : List HistRow :=
  [⟨some 25, some 864000⟩, ⟨some 26, some 600000⟩,
   ⟨some 28, some 300000⟩, ⟨some 30, some 0⟩]

/-- A ledger with one user whose stored totals are 7 points over 2 tests. -/
def ledgerEx : Ledger := ⟨[], 0, fun _ => ⟨7, 2⟩⟩

/-- An inconsistent ledger: test 5 is worth 40 points but its owner's stored
total is only 7 (and the stored test count is 0). -/
def ledgerBad : Ledger := ⟨[⟨5, 1, 40⟩], 6, fun _ => ⟨7, 0⟩⟩

end SatBot

/-! # Theorems -/

namespace SatBot

/-! ## Helper lemmas -/

/-- With enough fuel, the streak loop starting at `d` returns `n` exactly when
the `n` days `d, d-1, …, d-(n-1)` are all present and `d - n` is not. -/
theorem streakFromAux_run (n : ℕ) :
    ∀ (fuel : ℕ) (s : Finset ℤ) (d : ℤ), n < fuel →
      (∀ i : ℕ, i < n → d - (i : ℤ) ∈ s) → d - (n : ℤ) ∉ s →
      streakFromAux fuel s d = n := by
  induction n with
  | zero =>
      intro fuel s d hfuel _ hout
      match fuel, hfuel with
      | fuel + 1, _ =>
        have hd : d ∉ s := by simpa using hout
        simp [streakFromAux, hd]
  | succ n ih =>
      intro fuel s d hfuel hin hout
      match fuel, hfuel with
      | fuel + 1, hfuel =>
        have hd : d ∈ s := by simpa using hin 0 (Nat.succ_pos n)
        have hrec : streakFromAux fuel s (d - 1) = n := by
          apply ih fuel s (d - 1) (by omega)
          · intro i hi
            have h2 := hin (i + 1) (by omega)
            have heq : d - 1 - (i : ℤ) = d - ((i : ℤ) + 1) := by ring
            rw [heq]
            simpa using h2
          · have heq : d - 1 - (n : ℤ) = d - ((n : ℤ) + 1) := by ring
            rw [heq]
            simpa using hout
        simp [streakFromAux, hd, hrec]

/-- Specialisation of `streakFromAux_run` to the fuel used by `streakFrom`. -/
theorem streakFrom_run (s : Finset ℤ) (d : ℤ) (n : ℕ) (hcard : n ≤ s.card)
    (hin : ∀ i : ℕ, i < n → d - (i : ℤ) ∈ s) (hout : d - (n : ℤ) ∉ s) :
    streakFrom s d = n :=
  streakFromAux_run n (s.card + 1) s d (by omega) hin hout

/-- The persisted balance after one evaluation of `streak_days_with_saver`:
decremented by one exactly when the bridge branch fires, otherwise the prior
persisted value. -/
theorem streak_days_with_saver_snd (days : Finset ℤ) (today b db : ℤ) :
    (streak_days_with_saver days today b db).2
      = if days ≠ ∅ ∧ today ∉ days ∧ (today - 1) ∈ days ∧ 0 < b
        then b - 1 else db := by
  unfold streak_days_with_saver
  split_ifs <;> simp_all

/-- Kept points are at most as many as history rows. -/
theorem validPoints_length_le (history : List HistRow) :
    (validPoints history).length ≤ history.length := by
  unfold validPoints
  calc (((history.take 30).reverse).filterMap _).length
      ≤ (history.take 30).reverse.length := List.length_filterMap_le _ _
    _ = (history.take 30).length := List.length_reverse _
    _ ≤ history.length := by rw [List.length_take]; omega

/-! ## Claims about the goal projection estimator -/

/-- C7: for every input history with fewer than 4 historical points,
`estimate_goal` returns the "insufficient data" message, regardless of the
goal value or of any slope computable from the points present. -/
theorem C7_insufficient_below_four (history : List HistRow) (goal : ℤ)
    (now : ℚ) (h : history.length < 4) :
    estimate_goal history goal now = GoalResult.insufficientLogMore := by
  unfold estimate_goal
  rw [if_pos h]

theorem C7_witness :
    estimate_goal [] 44 0 = GoalResult.insufficientLogMore :=
  C7_insufficient_below_four [] 44 0 (by decide)

/-- C6: for every history with at least 4 valid points whose most recent
score is at least the goal, `estimate_goal` returns the "already met" message
— with no assumption on the slope, so in particular even when the slope is
negative; the already-met branch takes priority over the flat-trend and
projection branches. -/
theorem C6_already_met_priority (history : List HistRow) (goal : ℤ) (now : ℚ)
    (h4 : 4 ≤ (validPoints history).length) (hge : goal ≤ windowS1 history) :
    estimate_goal history goal now = GoalResult.alreadyMet goal := by
  have hlen : ¬ history.length < 4 := by
    have := validPoints_length_le history
    omega
  unfold estimate_goal
  rw [if_neg hlen, if_neg (by omega), if_pos hge]

theorem C6_witness :
    estimate_goal histNeg 20 0 = GoalResult.alreadyMet 20 ∧
    windowSlope histNeg < 0 :=
  ⟨C6_already_met_priority histNeg 20 0 (by decide) (by decide), by
    have hS1 : windowS1 histNeg = 25 := rfl
    have hS0 : windowS0 histNeg = 30 := rfl
    have hT1 : windowT1 histNeg = 864000 := rfl
    have hT0 : windowT0 histNeg = 0 := rfl
    rw [windowSlope, windowDays, hS1, hS0, hT1, hT0]
    norm_num [max_def]⟩

/-- C4: for every history with at least 4 valid points and latest score below
the goal, `estimate_goal` computes
`slope = (newest score - oldest score) / (elapsed days of the most recent
10-event sub-window, floored to the epsilon 1e-6)`; if the slope is at most
0.05 it returns the flat-trend message, and otherwise a projection whose
estimated instant is `now` plus `(goal - current score) / slope` days. -/
theorem C4_projection_algorithm (history : List HistRow) (goal : ℤ) (now : ℚ)
    (h4 : 4 ≤ (validPoints history).length) (hlt : windowS1 history < goal) :
    windowSlope history
      = ((windowS1 history : ℚ) - (windowS0 history : ℚ))
        / max (1 / 1000000) ((windowT1 history - windowT0 history) / 86400) ∧
    (windowSlope history ≤ 1 / 20 →
      estimate_goal history goal now = GoalResult.flatTrend goal) ∧
    (1 / 20 < windowSlope history →
      estimate_goal history goal now
        = GoalResult.projection goal (windowS1 history) (windowSlope history)
            (now + ((goal : ℚ) - (windowS1 history : ℚ))
              / windowSlope history * 86400)) := by
  have hlen : ¬ history.length < 4 := by
    have := validPoints_length_le history
    omega
  refine ⟨rfl, ?_, ?_⟩
  · intro hflat
    unfold estimate_goal
    rw [if_neg hlen, if_neg (by omega), if_neg (by omega), if_pos hflat]
  · intro hsteep
    unfold estimate_goal
    rw [if_neg hlen, if_neg (by omega), if_neg (by omega),
      if_neg (by exact not_le.mpr hsteep)]

theorem C4_witness :
    estimate_goal histFlat 44 0 = GoalResult.flatTrend 44 :=
  (C4_projection_algorithm histFlat 44 0 (by decide) (by decide)).2.1
    (by
      have hS1 : windowS1 histFlat = 20 := rfl
      have hS0 : windowS0 histFlat = 20 := rfl
      have hT1 : windowT1 histFlat = 864000 := rfl
      have hT0 : windowT0 histFlat = 0 := rfl
      rw [windowSlope, windowDays, hS1, hS0, hT1, hT0]
      norm_num [max_def])

/-- C2 counterexample: on the history of exactly the two points
`(t0, 20)` and `(t1, 30)` with `t1 - t0 = 10` days and goal 44, the code
returns the "insufficient data" message (the `len(history) < 4` guard fires),
not the projection with slope 1 and estimated date `t1 + 14` days that the
claim asserts. -/
theorem C2_counterexample :
    estimate_goal hist2c 44 864000 = GoalResult.insufficientLogMore ∧
    estimate_goal hist2c 44 864000
      ≠ GoalResult.projection 44 30 1 (864000 + 14 * 86400) := by
  constructor
  · decide
  · decide

/-- C2 (amended): a two-point history is rejected by the 4-point guard, so
the spec's example needs at least 4 points; on a four-point history whose
10-event window has endpoints `(t0, 20)` and `(t1, 30)` with
`t1 - t0 = 10` days and goal 44, `estimate_goal` computes slope 1 point/day
and 14 days needed, and returns the estimated instant `now + 14` days (the
code anchors the estimate at evaluation time `now`, not at `t1`);
recomputation from identical inputs yields the identical result. -/
theorem C2_amended_projection (now : ℚ) :
    estimate_goal hist4c 44 now
      = GoalResult.projection 44 30 1 (now + 14 * 86400) ∧
    estimate_goal hist4c 44 now = estimate_goal hist4c 44 now := by
  refine ⟨?_, rfl⟩
  have h1 : windowS1 hist4c = 30 := rfl
  have hS0 : windowS0 hist4c = 20 := rfl
  have hT1 : windowT1 hist4c = 864000 := rfl
  have hT0 : windowT0 hist4c = 0 := rfl
  have hs : windowSlope hist4c = 1 := by
    rw [windowSlope, windowDays, h1, hS0, hT1, hT0]
    norm_num [max_def]
  unfold estimate_goal
  rw [if_neg (by decide), if_neg (by decide), if_neg (by rw [h1]; decide),
    if_neg (by rw [hs]; norm_num), h1, hs]
  norm_num

/-! ## Claims about the streak and saver engine -/

/-- C1 counterexample: two evaluations of `streak_days_with_saver` on the
same day (events only on yesterday, no new ScoreEvent in between, each
evaluation fed the freshly persisted balance) starting from balance 2 leave
the persisted balance at 0 — a total decrement of 2, not at most 1.  Nothing
records that today was already bridged: only the balance is persisted, so the
second evaluation's bridge branch fires again. -/
theorem C1_counterexample :
    evalStreakTwice {-1} 0 2 = 0 ∧ ¬ (2 - evalStreakTwice {-1} 0 2 ≤ 1) := by
  constructor
  · decide
  · decide

/-- C1 (amended): a single evaluation of `streak_days_with_saver` decrements
the persisted saver balance by at most 1, and two evaluations on the same day
with no new ScoreEvent in between (each reading the freshly persisted
balance) decrement it by at most 2 in total; the per-day total is at most 1
only when the starting balance is at most 1 — per-calendar-day idempotence of
saver consumption does not hold for balances of 2 or more. -/
theorem C1_amended_consumption (days : Finset ℤ) (today : ℤ) (b : ℤ) :
    b - (streak_days_with_saver days today b b).2 ≤ 1 ∧
    b - evalStreakTwice days today b ≤ 2 ∧
    (b ≤ 1 → b - evalStreakTwice days today b ≤ 1) := by
  unfold evalStreakTwice
  rw [streak_days_with_saver_snd, streak_days_with_saver_snd]
  by_cases hc : days ≠ ∅ ∧ today ∉ days ∧ (today - 1) ∈ days
  · by_cases hb : 0 < b
    · rw [if_pos ⟨hc.1, hc.2.1, hc.2.2, hb⟩]
      by_cases hb1 : 0 < b - 1
      · rw [if_pos ⟨hc.1, hc.2.1, hc.2.2, hb1⟩]
        refine ⟨by omega, by omega, by omega⟩
      · rw [if_neg (by tauto)]
        refine ⟨by omega, by omega, by omega⟩
    · rw [if_neg (by tauto), if_neg (by tauto)]
      refine ⟨by omega, by omega, by omega⟩
  · rw [if_neg (by tauto), if_neg (by tauto)]
    refine ⟨by omega, by omega, by omega⟩

theorem C1_witness :
    (1 : ℤ) - evalStreakTwice {-1} 0 1 ≤ 1 :=
  (C1_amended_consumption {-1} 0 1).2.2 (by decide)

/-- C3: if `maybe_award_streak_saver` fires (the count of today's ScoreEvents
has reached the threshold and no saver was awarded today yet), a second
invocation on the same local day is a no-op whatever that invocation's count
is: across both invocations the balance increases by exactly 1, not 2, and
the award date equals today. -/
theorem C3_award_idempotent (st : AwardState) (today : ℤ) (c c2 : ℕ)
    (hfire : (maybe_award_streak_saver today c st).1 = true) :
    (maybe_award_streak_saver today c2
        (maybe_award_streak_saver today c st).2).1 = false ∧
    (maybe_award_streak_saver today c2
        (maybe_award_streak_saver today c st).2).2
      = (maybe_award_streak_saver today c st).2 ∧
    ((maybe_award_streak_saver today c st).2).streak_savers
      = st.streak_savers + 1 ∧
    ((maybe_award_streak_saver today c st).2).saver_awarded_date
      = some today := by
  unfold maybe_award_streak_saver at hfire ⊢
  split_ifs at hfire ⊢ <;> simp_all

theorem C3_witness :
    (maybe_award_streak_saver 0 5
        (maybe_award_streak_saver 0 3 ⟨0, none⟩).2).1 = false ∧
    (maybe_award_streak_saver 0 5
        (maybe_award_streak_saver 0 3 ⟨0, none⟩).2).2
      = (maybe_award_streak_saver 0 3 ⟨0, none⟩).2 ∧
    ((maybe_award_streak_saver 0 3 (⟨0, none⟩ : AwardState)).2).streak_savers
      = (0 : ℤ) + 1 ∧
    ((maybe_award_streak_saver 0 3 (⟨0, none⟩ : AwardState)).2).saver_awarded_date
      = some 0 :=
  C3_award_idempotent ⟨0, none⟩ 0 3 5 (by decide)

/-- C5: a user whose ScoreEvents cover exactly the `N` consecutive local days
ending today (`N > 0`) has streak `N`, consumes no saver and keeps the
balance unchanged; a user with no ScoreEvents at all has streak 0, consumes
no saver and keeps the balance unchanged. -/
theorem C5_streak_length (today : ℤ) (N : ℕ) (b db : ℤ) (hN : 0 < N) :
    streak_days_with_saver (consecutiveDays today N) today b db
      = (⟨N, false, b⟩, db) ∧
    streak_days_with_saver (∅ : Finset ℤ) today b db
      = (⟨0, false, b⟩, db) := by
  constructor
  · have htoday : today ∈ consecutiveDays today N := by
      simp only [consecutiveDays, Finset.mem_image, Finset.mem_range]
      exact ⟨0, hN, by simp⟩
    have hne : consecutiveDays today N ≠ ∅ := by
      intro h
      rw [h] at htoday
      simp at htoday
    have hcard : (consecutiveDays today N).card = N := by
      rw [consecutiveDays, Finset.card_image_of_injective _ ?_,
        Finset.card_range]
      intro a b hab
      have hab2 : today - (a : ℤ) = today - (b : ℤ) := hab
      omega
    have hstreak : streakFrom (consecutiveDays today N) today = N := by
      apply streakFrom_run _ _ _ (by omega)
      · intro i hi
        simp only [consecutiveDays, Finset.mem_image, Finset.mem_range]
        exact ⟨i, hi, rfl⟩
      · simp only [consecutiveDays, Finset.mem_image, Finset.mem_range,
          not_exists]
        intro j
        intro hj
        omega
    unfold streak_days_with_saver
    rw [if_neg hne, if_neg (by intro h; exact h.1 htoday), hstreak]
  · simp [streak_days_with_saver]

theorem C5_witness :
    streak_days_with_saver (consecutiveDays 0 3) 0 5 5
      = (⟨3, false, 5⟩, 5) ∧
    streak_days_with_saver (∅ : Finset ℤ) 0 5 5 = (⟨0, false, 5⟩, 5) :=
  C5_streak_length 0 3 5 5 (by decide)

/-- A single engine operation keeps the saver balance non-negative. -/
theorem engineStep_nonneg (st : EngineState) (op : EngineOp)
    (h : 0 ≤ st.streak_savers) : 0 ≤ (engineStep st op).streak_savers := by
  cases op with
  | award t c =>
      simp only [engineStep, maybe_award_streak_saver]
      split_ifs <;> simp <;> omega
  | evalStreak t =>
      simp only [engineStep, streak_days_with_saver_snd]
      split_ifs with hc
      · have := hc.2.2.2
        omega
      · exact h

/-- Any sequence of engine operations keeps the saver balance non-negative. -/
theorem runEngine_nonneg (ops : List EngineOp) :
    ∀ st : EngineState, 0 ≤ st.streak_savers →
      0 ≤ (runEngine st ops).streak_savers := by
  induction ops with
  | nil =>
      intro st h
      simpa [runEngine] using h
  | cons op ops ih =>
      intro st h
      have hstep : runEngine st (op :: ops) = runEngine (engineStep st op) ops :=
        rfl
      rw [hstep]
      exact ih _ (engineStep_nonneg st op h)

/-- C9: starting from a non-negative saver balance, every sequence of engine
operations (saver award, streak evaluation with its saver consumption) keeps
the balance a non-negative integer; a streak evaluation changes the balance
only when it is strictly positive, and then by exactly minus one; an award
never decreases it. -/
theorem C9_balance_invariant (st : EngineState) (ops : List EngineOp)
    (h : 0 ≤ st.streak_savers) :
    0 ≤ (runEngine st ops).streak_savers ∧
    (∀ today : ℤ,
      (engineStep st (.evalStreak today)).streak_savers ≠ st.streak_savers →
        0 < st.streak_savers ∧
        (engineStep st (.evalStreak today)).streak_savers
          = st.streak_savers - 1) ∧
    (∀ (today : ℤ) (c : ℕ),
      st.streak_savers ≤ (engineStep st (.award today c)).streak_savers) := by
  refine ⟨runEngine_nonneg ops st h, ?_, ?_⟩
  · intro today hne
    simp only [engineStep, streak_days_with_saver_snd] at hne ⊢
    split_ifs at hne ⊢ with hc
    · exact ⟨hc.2.2.2, rfl⟩
    · exact absurd rfl hne
  · intro today c
    simp only [engineStep, maybe_award_streak_saver]
    split_ifs <;> simp

theorem C9_witness :
    0 ≤ (runEngine ⟨{-1}, 1, none⟩
          [.award 0 3, .evalStreak 0, .evalStreak 0]).streak_savers :=
  (C9_balance_invariant ⟨{-1}, 1, none⟩
    [.award 0 3, .evalStreak 0, .evalStreak 0] (by decide)).1

/-! ## Claims about the score ledger -/

/-- C8: adding a ScoreEvent with `add_math_score` and then removing that same
event with `remove_test_by_id` restores the user's cumulative `total_points`
and `tests_count` to their pre-add values, for every ledger whose stored
counters are non-negative (they always are: both start at 0, additions add
the score and 1, and removal clamps at 0). -/
theorem C8_add_remove_round_trip (L : Ledger) (uid : ℕ) (score : ℤ)
    (hp : 0 ≤ (L.users uid).total_points)
    (hc : 0 ≤ (L.users uid).tests_count) :
    ((remove_test_by_id (add_math_score L uid score).1
        (add_math_score L uid score).2).1.users uid).total_points
      = (L.users uid).total_points ∧
    ((remove_test_by_id (add_math_score L uid score).1
        (add_math_score L uid score).2).1.users uid).tests_count
      = (L.users uid).tests_count := by
  unfold add_math_score remove_test_by_id
  dsimp only
  rw [List.find?_cons_of_pos _ (by simp)]
  dsimp only
  rw [if_pos rfl, if_pos rfl]
  constructor
  · have harith : (L.users uid).total_points + score - score
        = (L.users uid).total_points := by ring
    rw [harith, max_eq_right hp]
  · have harith : (L.users uid).tests_count + 1 - 1
        = (L.users uid).tests_count := by ring
    rw [harith, max_eq_right hc]

theorem C8_witness :
    ((remove_test_by_id (add_math_score ledgerEx 1 40).1
        (add_math_score ledgerEx 1 40).2).1.users 1).total_points
      = (ledgerEx.users 1).total_points ∧
    ((remove_test_by_id (add_math_score ledgerEx 1 40).1
        (add_math_score ledgerEx 1 40).2).1.users 1).tests_count
      = (ledgerEx.users 1).tests_count :=
  C8_add_remove_round_trip ledgerEx 1 40 (by decide) (by decide)

/-- C10: whenever `remove_test_by_id` deletes a test, the owner's resulting
`total_points` and `tests_count` are clamped at zero by `GREATEST(0, ...)`:
even when the removed score exceeds the stored total (an inconsistent
starting state), neither counter goes negative. -/
theorem C10_remove_clamps_at_zero (L : Ledger) (tid : ℕ) (uid : ℕ)
    (h : (remove_test_by_id L tid).2 = some uid) :
    0 ≤ ((remove_test_by_id L tid).1.users uid).total_points ∧
    0 ≤ ((remove_test_by_id L tid).1.users uid).tests_count := by
  unfold remove_test_by_id at h ⊢
  cases hfind : L.tests.find? (fun t => t.id == tid) with
  | none =>
      rw [hfind] at h
      dsimp only at h
      exact absurd h (by simp)
  | some t =>
      rw [hfind] at h
      dsimp only at h ⊢
      have huid : uid = t.user_id := by
        injection h with h2
        exact h2.symm
      subst huid
      rw [if_pos rfl]
      exact ⟨le_max_left 0 _, le_max_left 0 _⟩

theorem C10_witness :
    0 ≤ ((remove_test_by_id ledgerBad 5).1.users 1).total_points ∧
    0 ≤ ((remove_test_by_id ledgerBad 5).1.users 1).tests_count :=
  C10_remove_clamps_at_zero ledgerBad 5 1 (by decide)

end SatBot
